import Mathlib

/-!
Verification development for a TDS (tabular data stream) client library.

The definitions below are a shallow embedding of the two core source files
`src/conn.rs` (connection state machine, handshake, packet framing) and
`src/stmt.rs` (statement execution, token-stream interpretation, result
materialization).  Pure Rust functions become Lean functions; the mutable
connection state (`last_packet_id`, `packet_size`, `state`) is passed
explicitly; fallible Rust code (`TdsResult`) becomes a result type that also
records `panic!`/`assert!`/`unimplemented!` aborts as a distinct outcome.
Machine integers are modelled as `Nat`/`Int` with explicit `% 2^w` where
wrap-around matters (u8 packet ids wrap mod 255 in the source itself; u16
lengths wrap mod 65536; u32/i32 casts for statement handles).

Parts of the repository that the two files call into but that are not part
of the provided sources (the `protocol` module: `PacketHeader::new`,
`build_packet`, `update_len`, `HEADER_SIZE`, `catch_error`,
`into_prelogin`, `into_general_token_stream`, `into_stmt_token_stream`,
the `rpc` flag constants, and the `types` value codec) are modelled from
the specification; each such definition carries a doc comment starting
with `Modelled from the spec:`.
-/

set_option autoImplicit false

namespace Tiberius

/-- Connection phase, from `ClientState` in conn.rs. -/
inductive ClientState where
  | Initial
  | PreloginPerformed
  | Ready
  deriving DecidableEq, Repr

/-- A server-reported error token payload (`TokenStreamError` in the protocol
module): a numeric code and a human-readable message. -/
structure ServerErrorToken where
  code : Nat
  message : String
  deriving DecidableEq, Repr

/-- Modelled from the spec: the numeric value of the completion-status bit
meaning "an affected-row count is present" (`TokenStreamDoneStatus::Count`
in the protocol module, which is not among the provided sources). -/
def doneStatusCount : Nat := 16

/-- A completion token (`TokenStreamDone`): 16-bit status plus row count
(u64 on the wire). -/
structure DoneToken where
  status : Nat
  done_row_count : Nat
  deriving DecidableEq, Repr

/-- Scalar column wire types used by the statement layer (`ColumnType` in
types.rs, an external collaborator of the two core files; only the
constructors the core files name are modelled). -/
inductive ColumnType where
  | i32 (v : Int)
  | str (s : String)
  deriving DecidableEq, Repr

/-- A decoded column value (`ColumnValue` in types.rs): either a present
value or a NULL. -/
inductive ColumnValue where
  | Some (v : ColumnType)
  | None
  deriving DecidableEq, Repr

/-- A decoded response token (`TokenStream` in the protocol module).  The
constructors the core files match on are modelled precisely; every other
token kind is collapsed into `otherToken`, which the core files treat
uniformly (their `_` match arms). -/
inductive TokenStream where
  | error (e : ServerErrorToken)
  | done (d : DoneToken)
  | row (data : List ColumnValue)
  | returnValue (name : String) (data : Option ColumnValue)
  | envChangePacketSize (newValue : String) (oldValue : String)
  | otherToken
  deriving DecidableEq, Repr

/-- A decoded logical message (`Packet` in the protocol module), restricted
to the decoded-inbound shapes the core files match on: a pre-login reply
(which may carry a server error token), a generic token stream, or any
other shape. -/
inductive Packet where
  | preLogin (err : Option ServerErrorToken)
  | tokenStream (tokens : List TokenStream)
  | otherPacket
  deriving DecidableEq, Repr

/-- The library error type (`TdsError`): a server-reported error or any
other (protocol/transport/conversion) error with a message. -/
inductive TdsError where
  | serverError (e : ServerErrorToken)
  | other (msg : String)
  deriving DecidableEq, Repr

/-- Result of running a piece of the client: success, an error result
(Rust `Err`), or a process abort (Rust `panic!` / failed `assert!` /
`unimplemented!`), which the embedding keeps distinct from error results. -/
inductive TdsResult (α : Type) where
  | ok (a : α)
  | err (e : TdsError)
  | panic (msg : String)
  deriving DecidableEq, Repr

/-- Sequencing of fallible steps (`try!` in the source). -/
def TdsResult.bind {α β : Type} : TdsResult α → (α → TdsResult β) → TdsResult β
  | TdsResult.ok a, f => f a
  | TdsResult.err e, _ => TdsResult.err e
  | TdsResult.panic m, _ => TdsResult.panic m

/-- stmt.rs `handle_execute_packet`, inner token loop: the loop returns at
its first iteration on any token — a server error for an `Error` token, the
row count for a `Done` token (after asserting its status is `Count`;
a failed assertion aborts), and a protocol error for anything else.  An
empty token list falls through to the trailing "Unexpected packet" error. -/
def handleExecuteTokens : List TokenStream → TdsResult Nat
  | [] => TdsResult.err (TdsError.other ("exec: Unexpected packet"))
  | t :: _ =>
    match t with
    | TokenStream.error e => TdsResult.err (TdsError.serverError e)
    | TokenStream.done d =>
      if d.status = doneStatusCount then TdsResult.ok d.done_row_count
      else TdsResult.panic ("assertion failed: done_token.status == TokenStreamDoneStatus::Count")
    | _ => TdsResult.err (TdsError.other ("exec: unexpected TOKEN"))

/-- stmt.rs `handle_execute_packet` (lines 120-136). -/
def handle_execute_packet : Packet → TdsResult Nat
  | Packet.tokenStream tokens => handleExecuteTokens tokens
  | _ => TdsResult.err (TdsError.other ("exec: Unexpected packet"))

/-- stmt.rs `handle_query_packet`, inner token loop: collect the data of
every `Row` token in order, aborting with a server error at the first
`Error` token; all other tokens are skipped. -/
def collectRows : List TokenStream → TdsResult (List (List ColumnValue))
  | [] => TdsResult.ok []
  | TokenStream.error e :: _ => TdsResult.err (TdsError.serverError e)
  | TokenStream.row r :: rest => (collectRows rest).bind (fun rs => TdsResult.ok (r :: rs))
  | _ :: rest => collectRows rest

/-- stmt.rs `handle_query_packet` (lines 138-155): a token-stream packet
yields `Some` collected rows (or the first server error); any other packet
shape yields the initial `rows = None` result. -/
def handle_query_packet : Packet → TdsResult (Option (List (List ColumnValue)))
  | Packet.tokenStream tokens => (collectRows tokens).bind (fun rs => TdsResult.ok (Option.some rs))
  | _ => TdsResult.ok Option.none

/-! ### Packet framing (conn.rs `send_packet`, `alloc_id`) -/

/-- Status bits of a physical packet header (`PacketStatus` in the protocol
module); only the two values the core files name are modelled. -/
inductive PacketStatus where
  | NormalMessage
  | EndOfMessage
  deriving DecidableEq, Repr

/-- Modelled from the spec: the fixed physical-packet header size
(`packets::HEADER_SIZE`, not among the provided sources).  Per the wire
format: type (1) + status (1) + length (2) + session id (2) + packet id (1)
+ window (1) = 8 bytes. -/
def HEADER_SIZE : Nat := 8

/-- The header of a physical packet; only the fields `send_packet` reads or
writes (status, id, length) are modelled.  `length` is a u16: header plus
body length, reduced mod 2^16. -/
structure PacketHeader where
  status : PacketStatus
  id : Nat
  length : Nat
  deriving DecidableEq, Repr

/-- Modelled from the spec: `PacketHeader::new()` (protocol module) — a
fresh header template with id 0 and end-of-message status, length not yet
set. -/
def PacketHeader.new : PacketHeader :=
  { status := PacketStatus.EndOfMessage, id := 0, length := 0 }

/-- A message built for the wire (`build_packet`'s result): a header plus
the encoded body bytes. -/
structure BuiltPacket where
  header : PacketHeader
  data : List Nat
  deriving DecidableEq, Repr

/-- The u16 length field for a body of `n` bytes (`update_len` computes
header size + data length). -/
def packLen (n : Nat) : Nat := (HEADER_SIZE + n) % 65536

/-- Modelled from the spec: `build_packet(header, message)` (protocol
module) encodes the message body and fills in the header's length for the
fully intended body; the other template fields (id, status) are kept. -/
def build_packet (h : PacketHeader) (body : List Nat) : BuiltPacket :=
  { header := { h with length := packLen body.length }, data := body }

/-- The mutable connection fields `send_packet` uses: the per-connection
packet-id counter (u8, `last_packet_id`) and the negotiated maximum packet
size (u16, `packet_size`). -/
structure ConnSendState where
  last_packet_id : Nat
  packet_size : Nat
  deriving DecidableEq, Repr

/-- conn.rs `alloc_id` (lines 235-239): return the current id and advance
the counter mod 255. -/
def alloc_id (s : ConnSendState) : Nat × ConnSendState :=
  (s.last_packet_id, { s with last_packet_id := (s.last_packet_id + 1) % 255 })

/-- One physical packet as handed to `write_packet`: the header fields plus
the body segment written with it. -/
structure WrittenPacket where
  status : PacketStatus
  id : Nat
  length : Nat
  data : List Nat
  deriving DecidableEq, Repr

/-- The `while !packet.data.is_empty()` loop of conn.rs `send_packet`
(lines 323-338), with the loop's mutable variables explicit: `status` is
`packet.header.status` on loop entry (`NormalMessage`, set at line 322),
`data` the remaining body.  Each iteration either (a) sees that the whole
remainder plus header fits strictly below `packet_size`, marks the packet
end-of-message and writes it with `next_data = []`, or (b) splits off
`packet_size - HEADER_SIZE` bytes (Nat subtraction: the source subtracts
u16s, which would wrap below `HEADER_SIZE`; no claim concerns that range)
and writes them with the current status.  Every write stamps a freshly
allocated id and an updated length.  `fuel` bounds the recursion; `none`
means the fuel ran out (the loop did not terminate within `fuel` steps). -/
def sendLoop (status : PacketStatus) : Nat → ConnSendState → List Nat →
    Option (List WrittenPacket × ConnSendState)
  | 0, _, _ => Option.none
  | fuel + 1, s, data =>
    if data.isEmpty then Option.some ([], s)
    else if s.packet_size > data.length + HEADER_SIZE then
      let (i, s1) := alloc_id s
      Option.some ([{ status := PacketStatus.EndOfMessage, id := i,
                      length := packLen data.length, data := data }], s1)
    else
      let idx := s.packet_size - HEADER_SIZE
      let current := data.take idx
      let nextData := data.drop idx
      let (i, s1) := alloc_id s
      (sendLoop status fuel s1 nextData).map (fun rs =>
        ({ status := status, id := i,
           length := packLen current.length, data := current } :: rs.1, rs.2))

/-- conn.rs `send_packet` (lines 313-340), returning the sequence of
physical packets written and the updated connection state.  In the
non-split branch the source executes `header.id = self.alloc_id()` on the
*local* `header` variable (line 318), which is dead after `build_packet`
consumed a copy of it at line 315: the id counter advances but the written
packet keeps the id `build_packet` left in `packet.header` (the template
id).  The embedding reproduces that: the written packet's id is
`packet.header.id`, while the state still goes through `alloc_id`.
The split path runs `sendLoop` with fuel `body.length + 1`. -/
def send_packet (s : ConnSendState) (body : List Nat) :
    Option (List WrittenPacket × ConnSendState) :=
  let packet := build_packet PacketHeader.new body
  if packet.header.length < s.packet_size then
    let (_, s1) := alloc_id s
    Option.some ([{ status := packet.header.status, id := packet.header.id,
                    length := packet.header.length, data := packet.data }], s1)
  else
    sendLoop PacketStatus.NormalMessage (body.length + 1) s packet.data

/-! ### Receive primitives and the handshake (conn.rs `read_packet`,
`initialize`, `connect`) -/

/-- Modelled from the spec: `catch_error` (protocol module) — if the decoded
message carries a server error token, fail with that server error; the
handshake never proceeds past a server-reported failure. -/
def firstErrorToken : List TokenStream → Option ServerErrorToken
  | [] => Option.none
  | TokenStream.error e :: _ => Option.some e
  | _ :: rest => firstErrorToken rest

/-- Modelled from the spec: `Packet::catch_error` (protocol module). -/
def Packet.catch_error : Packet → TdsResult Unit
  | Packet.preLogin (Option.some e) => TdsResult.err (TdsError.serverError e)
  | Packet.tokenStream tokens =>
    match firstErrorToken tokens with
    | Option.some e => TdsResult.err (TdsError.serverError e)
    | Option.none => TdsResult.ok ()
  | _ => TdsResult.ok ()

/-- Modelled from the spec: `into_prelogin` (protocol module) — decode the
inbound message as a pre-login reply, a protocol error otherwise. -/
def into_prelogin : Packet → TdsResult Packet
  | Packet.preLogin e => TdsResult.ok (Packet.preLogin e)
  | _ => TdsResult.err (TdsError.other ("expected a prelogin reply"))

/-- Modelled from the spec: `into_general_token_stream` (protocol module) —
decode the inbound message as a generic token stream, a protocol error
otherwise. -/
def into_general_token_stream : Packet → TdsResult Packet
  | Packet.tokenStream tokens => TdsResult.ok (Packet.tokenStream tokens)
  | _ => TdsResult.err (TdsError.other ("expected a token stream"))

/-- conn.rs `read_packet` (lines 294-307): decode one reassembled inbound
message according to the current phase; in phase `Ready` the source calls
`panic!("read_packet: cannot be used in ready state")`. -/
def read_packet (state : ClientState) (message : Packet) : TdsResult Packet :=
  match state with
  | ClientState.Initial => into_prelogin message
  | ClientState.PreloginPerformed => into_general_token_stream message
  | ClientState.Ready => TdsResult.panic ("read_packet: cannot be used in ready state")

/-- The default `packet_size` set by `InternalConnection::new`
(conn.rs line 230): 0x1000. -/
def defaultPacketSize : Nat := 0x1000

/-- The decimal value of a digit character, if it is one. -/
def digitVal (c : Char) : Option Nat :=
  if 48 ≤ c.toNat ∧ c.toNat ≤ 57 then Option.some (c.toNat - 48) else Option.none

/-- Accumulate decimal digits; any non-digit fails. -/
def parseNatAux (acc : Nat) : List Char → Option Nat
  | [] => Option.some acc
  | c :: rest =>
    match digitVal c with
    | Option.some d => parseNatAux (acc * 10 + d) rest
    | Option.none => Option.none

/-- Rust `str::parse::<u16>()`: a nonempty all-digit string whose value is
below 2^16.  (The Rust parser also accepts a leading sign; no claim
depends on that case.) -/
def parse_u16 (s : String) : Option Nat :=
  match s.data with
  | [] => Option.none
  | c :: rest =>
    match parseNatAux 0 (c :: rest) with
    | Option.some n => if n < 65536 then Option.some n else Option.none
    | Option.none => Option.none

/-- The token scan of conn.rs `initialize` (lines 269-276): each
environment-change-packet-size token's value is parsed as a u16 and
overwrites the running packet size (a parse failure is an error); every
other token is skipped.  Returns the packet size reached and the error, if
any. -/
def scanEnvChange (psz : Nat) : List TokenStream → Nat × Option TdsError
  | [] => (psz, Option.none)
  | TokenStream.envChangePacketSize x _ :: rest =>
    match parse_u16 x with
    | Option.some n => scanEnvChange n rest
    | Option.none => (psz, Option.some (TdsError.other ("cannot convert packet size")))
  | _ :: rest => scanEnvChange psz rest

/-- The two inbound messages the peer sends during the handshake: the reply
to the pre-login message and the reply to the login message.  (Writes are
not modelled as failing; the claims concern the response handling.) -/
structure HandshakeEnv where
  preloginResponse : Packet
  loginResponse : Packet
  deriving DecidableEq, Repr

/-- First handshake round trip (conn.rs lines 243-254): read the pre-login
reply in phase `Initial` and check it for a server error token. -/
def prelogin_step (response : Packet) : TdsResult Unit :=
  (read_packet ClientState.Initial response).bind (fun p => p.catch_error)

/-- Second handshake round trip, read side (conn.rs lines 265-266): read
the login reply in phase `PreloginPerformed` and check it for a server
error token, keeping the decoded packet. -/
def login_read (response : Packet) : TdsResult Packet :=
  (read_packet ClientState.PreloginPerformed response).bind
    (fun p => (p.catch_error).bind (fun _ => TdsResult.ok p))

/-- The observable outcome of `InternalConnection::initialize`: the
successive values taken by the connection's `state` field (starting at
`Initial`, from `InternalConnection::new`), the final `packet_size`, and
the returned result. -/
structure InitOutcome where
  trace : List ClientState
  packet_size : Nat
  result : TdsResult Unit
  deriving DecidableEq, Repr

/-- conn.rs `InternalConnection::initialize` (lines 242-284).  After a
successful pre-login round trip the state becomes `PreloginPerformed`
(line 255); after the login reply is scanned the state becomes `Ready`
(line 282).  A login reply that is a token stream is scanned for
environment-change-packet-size tokens; note that the source's
"expected a envchange setting a packet size after the login" error fires
only for a reply that is *not* a token stream at all — a token stream
containing no such token falls through the scan unchanged and the
connection still reaches `Ready` with the default packet size. -/
def conn_init (env : HandshakeEnv) : InitOutcome :=
  match prelogin_step env.preloginResponse with
  | TdsResult.err e =>
    { trace := [ClientState.Initial], packet_size := defaultPacketSize,
      result := TdsResult.err e }
  | TdsResult.panic m =>
    { trace := [ClientState.Initial], packet_size := defaultPacketSize,
      result := TdsResult.panic m }
  | TdsResult.ok _ =>
    match login_read env.loginResponse with
    | TdsResult.err e =>
      { trace := [ClientState.Initial, ClientState.PreloginPerformed],
        packet_size := defaultPacketSize, result := TdsResult.err e }
    | TdsResult.panic m =>
      { trace := [ClientState.Initial, ClientState.PreloginPerformed],
        packet_size := defaultPacketSize, result := TdsResult.panic m }
    | TdsResult.ok p =>
      match p with
      | Packet.tokenStream tokens =>
        match scanEnvChange defaultPacketSize tokens with
        | (psz, Option.some e) =>
          { trace := [ClientState.Initial, ClientState.PreloginPerformed],
            packet_size := psz, result := TdsResult.err e }
        | (psz, Option.none) =>
          { trace := [ClientState.Initial, ClientState.PreloginPerformed, ClientState.Ready],
            packet_size := psz, result := TdsResult.ok () }
      | _ =>
        { trace := [ClientState.Initial, ClientState.PreloginPerformed],
          packet_size := defaultPacketSize,
          result := TdsResult.err (TdsError.other
            ("expected a envchange setting a packet size after the login")) }

/-- The connection object `connect` hands to the caller: the final values
of the fields the claims observe. -/
structure ActiveConn where
  state : ClientState
  packet_size : Nat
  deriving DecidableEq, Repr

/-- conn.rs `Connection::connect` (lines 199-204): allocate a fresh
internal connection, run `initialize`, and wrap the connection only on
success — any failure propagates and no connection object is returned.
The wrapped connection carries the `state` field whose successive values
`conn_init`'s trace records (so its final state is the trace's last
entry). -/
def connect (env : HandshakeEnv) : TdsResult ActiveConn :=
  match (conn_init env).result with
  | TdsResult.ok _ =>
    TdsResult.ok { state := (conn_init env).trace.getLastD ClientState.Initial,
                   packet_size := (conn_init env).packet_size }
  | TdsResult.err e => TdsResult.err e
  | TdsResult.panic m => TdsResult.panic m

/-! ### The batch-exec pipeline (conn.rs `exec`, stmt.rs `execute`) -/

/-- conn.rs `internal_exec` (lines 287-291): assert the connection is in
phase `Ready` (a failed assertion aborts) and send the SQL batch. -/
def internal_exec (state : ClientState) : TdsResult Unit :=
  if state = ClientState.Ready then TdsResult.ok ()
  else TdsResult.panic ("assertion failed: self.state == ClientState::Ready")

/-- stmt.rs `StatementInternal::execute` (lines 173-178) as invoked by
conn.rs `Connection::exec` (lines 166-169): send the batch via
`internal_exec`, then read the response with the phase-checked
`read_packet`, then interpret it with `handle_execute_packet`.
`response` is the decoded message the peer would deliver. -/
def conn_exec (state : ClientState) (response : Packet) : TdsResult Nat :=
  (internal_exec state).bind (fun _ =>
    (read_packet state response).bind (fun p => handle_execute_packet p))

/-! ### Remote-procedure-call requests and the statement layer (stmt.rs) -/

/-- Modelled from the spec: the "output / by reference" parameter status
bit (`rpc::fByRefValue`, protocol module). -/
def fByRefValue : Nat := 1

/-- Modelled from the spec: the "metadata suppressed" request flag
(`rpc::fNoMetaData`, protocol module). -/
def fNoMetaData : Nat := 2

/-- The server-side procedures invoked by numeric identifier
(`RpcProcId`); only the two the core files use are modelled. -/
inductive RpcProcId where
  | SpPrepare
  | SpExecuteSql
  deriving DecidableEq, Repr

/-- A procedure designator (`RpcProcIdValue`): numeric id or name. -/
inductive RpcProcIdValue where
  | id (i : RpcProcId)
  | name (s : String)
  deriving DecidableEq, Repr

/-- One named RPC parameter (`RpcParamData`). -/
structure RpcParamData where
  name : String
  status_flags : Nat
  value : ColumnType
  deriving DecidableEq, Repr

/-- An RPC request body (`RpcRequestData`). -/
structure RpcRequestData where
  proc_id : RpcProcIdValue
  flags : Nat
  params : List RpcParamData
  deriving DecidableEq, Repr

/-- A call-site argument as the statement layer consumes it (the
`ToColumnType` trait of types.rs): its wire type name (`column_type()`)
and its encoded value (`to_column_type()`). -/
structure ToColumnType where
  column_type : String
  to_column_type : ColumnType
  deriving DecidableEq, Repr

/-- The parameter-signature string built by `do_prepare` (stmt.rs lines
198-206): `@P1 ty1,@P2 ty2,…` over the arguments in order; `i` is the
zero-based position of the head argument. -/
def buildParamStr (i : Nat) : List ToColumnType → String
  | [] => ""
  | p :: rest =>
    (if i > 0 then "," else "") ++ "@P" ++ toString (i + 1) ++ " " ++ p.column_type
      ++ buildParamStr (i + 1) rest

/-- The positionally named value parameters `@P1 …` appended to an exec
RPC (stmt.rs lines 271-277 and 345-351); `i` is the zero-based position of
the head argument. -/
def valueParams (i : Nat) : List ToColumnType → List RpcParamData
  | [] => []
  | p :: rest =>
    { name := "@P" ++ toString (i + 1), status_flags := 0, value := p.to_column_type }
      :: valueParams (i + 1) rest

/-- The i32 a u32 handle is reinterpreted as (`stmt.handle.unwrap() as i32`,
stmt.rs line 268). -/
def i32_of_u32 (n : Nat) : Int :=
  if n < 2 ^ 31 then (n : Int) else (n : Int) - 2 ^ 32

/-- The u32 an i32 handle is reinterpreted as (`ihandle as u32`, stmt.rs
line 243). -/
def u32_of_i32 (i : Int) : Nat := (i % 2 ^ 32).toNat

/-- The `sp_prepare` RPC request `do_prepare` builds (stmt.rs lines
209-230): a by-reference i32 handle placeholder initialized to 0, the
parameter-signature string, and the statement text, invoking `SpPrepare`
by numeric id. -/
def sp_prepare_rpc (sql : String) (params : List ToColumnType) : RpcRequestData :=
  { proc_id := RpcProcIdValue.id RpcProcId.SpPrepare, flags := 0,
    params := [
      { name := "handle", status_flags := fByRefValue, value := ColumnType.i32 0 },
      { name := "params", status_flags := 0, value := ColumnType.str (buildParamStr 0 params) },
      { name := "stmt", status_flags := 0, value := ColumnType.str sql }] }

/-- The `sp_execute` RPC request `PreparedStatement::do_internal_exec`
builds (stmt.rs lines 263-284): the cached handle (u32 reinterpreted as
i32) by reference, then the argument values, invoking `sp_execute` by
name with metadata suppressed. -/
def sp_execute_rpc (h : Nat) (params : List ToColumnType) : RpcRequestData :=
  { proc_id := RpcProcIdValue.name ("sp_execute"), flags := fNoMetaData,
    params := { name := "handle", status_flags := fByRefValue,
                value := ColumnType.i32 (i32_of_u32 h) } :: valueParams 0 params }

/-- Modelled from the spec: `into_stmt_token_stream` (protocol module) —
decode the inbound message as a token stream while folding
column-metadata tokens into the statement's metadata; a protocol error for
any other message shape.  (The metadata update itself is not needed by any
claim.) -/
def into_stmt_token_stream : Packet → TdsResult Packet
  | Packet.tokenStream tokens => TdsResult.ok (Packet.tokenStream tokens)
  | _ => TdsResult.err (TdsError.other ("expected a statement token stream"))

/-- The handle scan of `do_prepare` (stmt.rs lines 238-251): every
return-value token named "handle" must carry a present i32, which (cast to
u32) overwrites the stored handle; a "handle" return value of any other
shape is an "invalid handle id" error; all other tokens are skipped.
Returns the handle state reached and the error, if any. -/
def scanHandle (handle : Option Nat) : List TokenStream → Option Nat × Option TdsError
  | [] => (handle, Option.none)
  | TokenStream.returnValue n d :: rest =>
    if n = "handle" then
      match d with
      | Option.some (ColumnValue.Some (ColumnType.i32 ih)) =>
        scanHandle (Option.some (u32_of_i32 ih)) rest
      | _ => (handle, Option.some (TdsError.other ("prepare: invalid handle id")))
    else scanHandle handle rest
  | _ :: rest => scanHandle handle rest

/-- Outcome of one statement-layer call: the RPC requests sent, the
statement's handle state afterwards, and the returned result. -/
structure PrepareOut where
  sent : List RpcRequestData
  handle : Option Nat
  result : TdsResult Unit
  deriving DecidableEq, Repr

/-- stmt.rs `PreparedStatement::do_prepare` (lines 197-259): send the
`sp_prepare` RPC, decode the response as a statement token stream, check
it for a server error, scan it for the returned handle, and fail if no
handle was stored. -/
def do_prepare (sql : String) (params : List ToColumnType) (handle0 : Option Nat)
    (response : Packet) : PrepareOut :=
  let rpc := sp_prepare_rpc sql params
  match into_stmt_token_stream response with
  | TdsResult.err e => { sent := [rpc], handle := handle0, result := TdsResult.err e }
  | TdsResult.panic m => { sent := [rpc], handle := handle0, result := TdsResult.panic m }
  | TdsResult.ok p =>
    match p.catch_error with
    | TdsResult.err e => { sent := [rpc], handle := handle0, result := TdsResult.err e }
    | TdsResult.panic m => { sent := [rpc], handle := handle0, result := TdsResult.panic m }
    | TdsResult.ok _ =>
      match p with
      | Packet.tokenStream tokens =>
        match scanHandle handle0 tokens with
        | (h, Option.some e) => { sent := [rpc], handle := h, result := TdsResult.err e }
        | (h, Option.none) =>
          match h with
          | Option.none =>
            { sent := [rpc], handle := h,
              result := TdsResult.err (TdsError.other ("prepare: did not receive a handle id")) }
          | Option.some _ => { sent := [rpc], handle := h, result := TdsResult.ok () }
      | _ =>
        { sent := [rpc], handle := handle0,
          result := TdsResult.err (TdsError.other ("exec: Unexpected packet")) }

/-- stmt.rs `PreparedStatement::do_internal_exec` (lines 263-289): unwrap
the cached handle (aborting if it is absent — `Option::unwrap`) and send
the `sp_execute` RPC. -/
def prepared_internal_exec (handle : Option Nat) (params : List ToColumnType) :
    List RpcRequestData × TdsResult Unit :=
  match handle with
  | Option.none => ([], TdsResult.panic ("called Option::unwrap on a None value"))
  | Option.some h => ([sp_execute_rpc h params], TdsResult.ok ())

/-- The peer's responses for one prepared-statement execution: the reply to
the `sp_prepare` RPC (read only when a prepare is actually sent) and the
reply to the `sp_execute` RPC. -/
structure PrepEnv where
  prepResponse : Packet
  execResponse : Packet
  deriving DecidableEq, Repr

/-- Outcome of one `PreparedStatement::query` call. -/
structure QueryOut where
  sent : List RpcRequestData
  handle : Option Nat
  result : TdsResult (Option (List (List ColumnValue)))
  deriving DecidableEq, Repr

/-- stmt.rs `PreparedStatement::query` (lines 293-305): prepare lazily
(only when no handle is cached yet), then send the `sp_execute` RPC via
`do_internal_exec`, read the response as a statement token stream, and
interpret it with `handle_query_packet`. -/
def prepared_query (handle0 : Option Nat) (sql : String) (params : List ToColumnType)
    (env : PrepEnv) : QueryOut :=
  let prep : PrepareOut :=
    match handle0 with
    | Option.none => do_prepare sql params Option.none env.prepResponse
    | Option.some h => { sent := [], handle := Option.some h, result := TdsResult.ok () }
  match prep.result with
  | TdsResult.err e => { sent := prep.sent, handle := prep.handle, result := TdsResult.err e }
  | TdsResult.panic m => { sent := prep.sent, handle := prep.handle, result := TdsResult.panic m }
  | TdsResult.ok _ =>
    let (sentE, execRes) := prepared_internal_exec prep.handle params
    match execRes with
    | TdsResult.err e =>
      { sent := prep.sent ++ sentE, handle := prep.handle, result := TdsResult.err e }
    | TdsResult.panic m =>
      { sent := prep.sent ++ sentE, handle := prep.handle, result := TdsResult.panic m }
    | TdsResult.ok _ =>
      match into_stmt_token_stream env.execResponse with
      | TdsResult.err e =>
        { sent := prep.sent ++ sentE, handle := prep.handle, result := TdsResult.err e }
      | TdsResult.panic m =>
        { sent := prep.sent ++ sentE, handle := prep.handle, result := TdsResult.panic m }
      | TdsResult.ok p =>
        { sent := prep.sent ++ sentE, handle := prep.handle, result := handle_query_packet p }

/-- N successive `query` calls on one prepared statement, threading the
cached handle; returns every RPC request sent, in order, and the final
handle state. -/
def run_queries (handle0 : Option Nat) (sql : String) (params : List ToColumnType) :
    List PrepEnv → List RpcRequestData × Option Nat
  | [] => ([], handle0)
  | e :: rest =>
    let o := prepared_query handle0 sql params e
    let (sentRest, hFin) := run_queries o.handle sql params rest
    (o.sent ++ sentRest, hFin)

/-- Is this RPC request a "prepare" call (`SpPrepare` by id)? -/
def isPrepareRpc (r : RpcRequestData) : Bool :=
  match r.proc_id with
  | RpcProcIdValue.id RpcProcId.SpPrepare => true
  | _ => false

/-- Is this RPC request an "execute" call (`sp_execute` by name)? -/
def isExecuteRpc (r : RpcRequestData) : Bool :=
  match r.proc_id with
  | RpcProcIdValue.name s => s = "sp_execute"
  | _ => false

/-- The value of the leading "handle" parameter of an RPC request, if the
leading parameter is named "handle". -/
def handleArg (r : RpcRequestData) : Option ColumnType :=
  match r.params with
  | p :: _ => if p.name = "handle" then Option.some p.value else Option.none
  | [] => Option.none

/-- The `sp_executesql` RPC request `ParameterizedStatement::do_internal_exec`
builds (stmt.rs lines 331-364): the statement text, the explicit
parameter-signature string, then the argument values, invoking
`SpExecuteSql` by numeric id. -/
def sp_executesql_rpc (sql : String) (param_meta : String) (params : List ToColumnType) :
    RpcRequestData :=
  { proc_id := RpcProcIdValue.id RpcProcId.SpExecuteSql, flags := 0,
    params := { name := "stmt", status_flags := 0, value := ColumnType.str sql }
      :: { name := "params", status_flags := 0, value := ColumnType.str param_meta }
      :: valueParams 0 params }

/-- stmt.rs `ParameterizedStatement::query` (lines 370-378), as written:
it never calls `do_internal_exec` — it immediately reads one inbound
message, decodes it as a statement token stream (an early error return on
failure), and then aborts via `unimplemented!()`.  No RPC request is ever
sent. -/
def parameterized_query (_sql : String) (_param_meta : String) (_params : List ToColumnType)
    (response : Packet) : List RpcRequestData × TdsResult (Option (List (List ColumnValue))) :=
  match into_stmt_token_stream response with
  | TdsResult.err e => ([], TdsResult.err e)
  | TdsResult.panic m => ([], TdsResult.panic m)
  | TdsResult.ok _ => ([], TdsResult.panic ("not implemented"))

/-! ### Result materialization (stmt.rs `Row::get`, `QueryResult::get`) -/

/-- One column descriptor (`ColumnData` in the protocol module); only the
optional column name is consumed by the lookup code. -/
structure ColumnData where
  col_name : Option String
  deriving DecidableEq, Repr

/-- A row-lookup key: by ordinal position (the `usize` `RowIndex`
instance) or by column name (the `&str` instance). -/
inductive RowIdx where
  | pos (n : Nat)
  | name (s : String)
  deriving DecidableEq, Repr

/-- Name resolution (stmt.rs lines 46-56): a linear scan over the
statement's column metadata; the first column whose (present) name equals
the key, case-sensitively, wins. -/
def get_index_name (s : String) : List ColumnData → Option Nat
  | [] => Option.none
  | c :: rest =>
    match c.col_name with
    | Option.some n =>
      if n = s then Option.some 0 else (get_index_name s rest).map (fun i => i + 1)
    | Option.none => (get_index_name s rest).map (fun i => i + 1)

/-- `RowIndex::get_index` for the two key forms (stmt.rs lines 39-56): an
ordinal is returned unchecked; a name is resolved against the metadata. -/
def get_index (infos : List ColumnData) : RowIdx → Option Nat
  | RowIdx.pos n => Option.some n
  | RowIdx.name s => get_index_name s infos

/-- Outcome of a value lookup: the decoded value, or one of the three
distinct aborts the source can raise (`panic!("unknown index…")`,
the `Vec` bounds-check panic of `self.values[idx]`, and
`panic!("type mismatch…")`).  None of the aborts carries a value. -/
inductive GetOutcome (α : Type) where
  | ok (a : α)
  | panicUnknownIndex
  | panicIndexOutOfBounds
  | panicTypeMismatch
  deriving DecidableEq, Repr

/-- stmt.rs `Row::get` (lines 58-69): resolve the key to a position
(aborting on an unresolvable key), index the value list (the source's
`self.values[idx]`, whose bounds check aborts), and convert the wire value
to the requested host type via the value codec's `From` conversion `dec`
(aborting when the conversion yields no value, i.e. on a wire/host type
mismatch). -/
def Row.get {α : Type} (infos : List ColumnData) (values : List ColumnValue)
    (dec : ColumnValue → Option α) (idx : RowIdx) : GetOutcome α :=
  match get_index infos idx with
  | Option.none => GetOutcome.panicUnknownIndex
  | Option.some i =>
    match values.get? i with
    | Option.none => GetOutcome.panicIndexOutOfBounds
    | Option.some v =>
      match dec v with
      | Option.some x => GetOutcome.ok x
      | Option.none => GetOutcome.panicTypeMismatch

/-- stmt.rs `QueryResult::get` (lines 88-98): return the row at `idx`, and
abort (`panic!("queryresult: get: idx out of bounds")`) when there is no
row list or the index is out of range. -/
def QueryResult.get (rows : Option (List (List ColumnValue))) (idx : Nat) :
    GetOutcome (List ColumnValue) :=
  match rows with
  | Option.none => GetOutcome.panicIndexOutOfBounds
  | Option.some rs =>
    match rs.get? idx with
    | Option.some r => GetOutcome.ok r
    | Option.none => GetOutcome.panicIndexOutOfBounds

/-! ### Concrete fixtures used to instantiate the theorems -/

/-- A handshake environment whose login reply carries an
environment-change token setting the packet size to 2048. -/
def handshakeEnvOk : HandshakeEnv :=
  { preloginResponse := Packet.preLogin Option.none,
    loginResponse := Packet.tokenStream [TokenStream.envChangePacketSize "2048" "4096"] }

/-- A handshake environment whose login reply is a completion-only token
stream containing no environment-change token. -/
def handshakeEnvNoEnvChange : HandshakeEnv :=
  { preloginResponse := Packet.preLogin Option.none,
    loginResponse := Packet.tokenStream [TokenStream.done { status := doneStatusCount,
                                                            done_row_count := 0 }] }

/-- A prepared-statement environment whose prepare reply returns handle 7
and whose execute reply is an empty token stream. -/
def prepEnv7 : PrepEnv :=
  { prepResponse := Packet.tokenStream
      [TokenStream.returnValue "handle" (Option.some (ColumnValue.Some (ColumnType.i32 7)))],
    execResponse := Packet.tokenStream [] }

/-- Two-column metadata fixture. -/
def infosAB : List ColumnData :=
  [{ col_name := Option.some "a" }, { col_name := Option.some "b" }]

/-- A one-value row fixture holding the i32 value 1. -/
def valuesI32 : List ColumnValue := [ColumnValue.Some (ColumnType.i32 1)]

/-- The value codec's i32 host conversion (`From<&ColumnValue> for
Option<i32>`): present only for an i32 wire value. -/
def decI32 : ColumnValue → Option Int
  | ColumnValue.Some (ColumnType.i32 n) => Option.some n
  | _ => Option.none

/-- The value codec's string host conversion: present only for a string
wire value. -/
def decStr : ColumnValue → Option String
  | ColumnValue.Some (ColumnType.str s) => Option.some s
  | _ => Option.none

/-! ## Theorems

Helper lemmas first, then one theorem per claim (with a counterexample or
witness where required). -/

theorem collectRows_of_error_mem (tokens : List TokenStream) (e : ServerErrorToken)
    (h : TokenStream.error e ∈ tokens) :
    ∃ e2, collectRows tokens = TdsResult.err (TdsError.serverError e2) := by
  induction tokens with
  | nil => cases h
  | cons t rest ih =>
    cases t with
    | error e0 => exact ⟨e0, rfl⟩
    | done d =>
      simp only [List.mem_cons] at h
      rcases h with h | h
      · cases h
      · exact ih h
    | row r =>
      simp only [List.mem_cons] at h
      rcases h with h | h
      · cases h
      · obtain ⟨e2, h2⟩ := ih h
        exact ⟨e2, by simp [collectRows, h2, TdsResult.bind]⟩
    | returnValue n d =>
      simp only [List.mem_cons] at h
      rcases h with h | h
      · cases h
      · exact ih h
    | envChangePacketSize a b =>
      simp only [List.mem_cons] at h
      rcases h with h | h
      · cases h
      · exact ih h
    | otherToken =>
      simp only [List.mem_cons] at h
      rcases h with h | h
      · cases h
      · exact ih h

/-- C1 counterexample: a response token sequence holding both a completion
token and an error token, in that order, makes exec's token handling
(`handle_execute_packet`) deliver the completion count 5, not the server
error — the loop returns at the first token it recognizes. -/
theorem exec_done_then_error_returns_count :
    handle_execute_packet (Packet.tokenStream
      [TokenStream.done { status := doneStatusCount, done_row_count := 5 },
       TokenStream.error { code := 547, message := "constraint violated" }])
      = TdsResult.ok 5 := rfl

/-- C1 (amended): a *leading* error token always makes exec's token
handling deliver the server error, whatever follows; and query's token
handling (`handle_query_packet`) delivers a server error whenever an error
token appears *anywhere* in the sequence, never the row data. -/
theorem error_precedence_amended :
    (∀ (e : ServerErrorToken) (rest : List TokenStream),
        handle_execute_packet (Packet.tokenStream (TokenStream.error e :: rest))
          = TdsResult.err (TdsError.serverError e)) ∧
    (∀ tokens : List TokenStream, (∃ e, TokenStream.error e ∈ tokens) →
        ∃ e2, handle_query_packet (Packet.tokenStream tokens)
          = TdsResult.err (TdsError.serverError e2)) := by
  constructor
  · intro e rest
    rfl
  · intro tokens h
    obtain ⟨e, he⟩ := h
    obtain ⟨e2, h2⟩ := collectRows_of_error_mem tokens e he
    exact ⟨e2, by simp [handle_query_packet, h2, TdsResult.bind]⟩

/-- C1 witness: instantiating the amended claim at a concrete sequence in
which a row token precedes the error token. -/
theorem error_precedence_amended_witness :
    ∃ e2, handle_query_packet (Packet.tokenStream
        [TokenStream.row [], TokenStream.error { code := 2, message := "boom" }])
      = TdsResult.err (TdsError.serverError e2) :=
  error_precedence_amended.2 _ ⟨{ code := 2, message := "boom" }, by simp⟩

/-- C2: evaluating `send_packet` at a body whose length plus the header
size equals the negotiated maximum exactly (maximum 16, header 8, body 8
bytes): the message enters the split path, the single emitted packet is
written with `NormalMessage` status, and no packet of the message carries
the end-of-message status. -/
theorem send_packet_exact_fit_loses_eom :
    send_packet { last_packet_id := 0, packet_size := 16 } (List.replicate 8 0)
      = Option.some ([{ status := PacketStatus.NormalMessage, id := 0, length := 16,
                        data := List.replicate 8 0 }],
                     { last_packet_id := 1, packet_size := 16 }) ∧
    ∀ p ∈ [({ status := PacketStatus.NormalMessage, id := 0, length := 16,
              data := List.replicate 8 0 } : WrittenPacket)],
      p.status ≠ PacketStatus.EndOfMessage :=
  ⟨rfl, by decide⟩

/-- C4: evaluating two consecutive non-split sends from a fresh connection
state: the id counter advances (0 → 1 → 2) but both written packets are
stamped with the header-template id 0, because `header.id = self.alloc_id()`
in the non-split branch writes to a local that is dead after
`build_packet` — stamped ids repeat instead of running 0, 1. -/
theorem packet_id_dead_store :
    send_packet { last_packet_id := 0, packet_size := 4096 } [1, 2, 3]
      = Option.some ([{ status := PacketStatus.EndOfMessage, id := 0, length := 11,
                        data := [1, 2, 3] }],
                     { last_packet_id := 1, packet_size := 4096 }) ∧
    send_packet { last_packet_id := 1, packet_size := 4096 } [1, 2, 3]
      = Option.some ([{ status := PacketStatus.EndOfMessage, id := 0, length := 11,
                        data := [1, 2, 3] }],
                     { last_packet_id := 2, packet_size := 4096 }) :=
  ⟨rfl, rfl⟩

/-- C7: evaluating the batch-exec pipeline in phase `Ready` at the response
`[Done(status = Count, rows = 7)]`: the pipeline aborts in `read_packet`
(which panics in phase `Ready`) and never returns 7 — even though the
token interpretation `handle_execute_packet` alone, fed that response,
does return 7. -/
theorem exec_ready_panics :
    conn_exec ClientState.Ready
        (Packet.tokenStream [TokenStream.done { status := doneStatusCount,
                                                done_row_count := 7 }])
      = TdsResult.panic ("read_packet: cannot be used in ready state") ∧
    handle_execute_packet
        (Packet.tokenStream [TokenStream.done { status := doneStatusCount,
                                                done_row_count := 7 }])
      = TdsResult.ok 7 :=
  ⟨rfl, rfl⟩

/-- C8: `ParameterizedStatement::query` never sends any RPC request — in
particular no `sp_executesql` invocation — and never returns a result set:
it reads one message and then either propagates the decode error or aborts
as unimplemented. -/
theorem parameterized_query_never_sends :
    ∀ (sql param_meta : String) (params : List ToColumnType) (response : Packet),
      (parameterized_query sql param_meta params response).1 = []
      ∧ ((parameterized_query sql param_meta params response).2
            = TdsResult.panic ("not implemented")
         ∨ ∃ e, (parameterized_query sql param_meta params response).2
            = TdsResult.err e) := by
  intro sql param_meta params response
  cases response with
  | preLogin e => exact ⟨rfl, Or.inr ⟨_, rfl⟩⟩
  | tokenStream tokens => exact ⟨rfl, Or.inl rfl⟩
  | otherPacket => exact ⟨rfl, Or.inr ⟨_, rfl⟩⟩

/-- C3: evaluating the handshake at a login reply that is a token stream
with *no* environment-change-packet-size token: initialization does not
abort — it returns success, the connection reaches `Ready`, and the
packet size stays at the default 0x1000.  (The source's "expected a
envchange…" error fires only for a non-token-stream reply.)  When the
token *is* present its value is parsed as a u16 and overwrites the packet
size, as the third conjunct shows at value "2048". -/
theorem conn_init_missing_envchange_reaches_ready :
    conn_init handshakeEnvNoEnvChange
      = { trace := [ClientState.Initial, ClientState.PreloginPerformed, ClientState.Ready],
          packet_size := defaultPacketSize, result := TdsResult.ok () } ∧
    connect handshakeEnvNoEnvChange
      = TdsResult.ok { state := ClientState.Ready, packet_size := defaultPacketSize } ∧
    conn_init handshakeEnvOk
      = { trace := [ClientState.Initial, ClientState.PreloginPerformed, ClientState.Ready],
          packet_size := 2048, result := TdsResult.ok () } :=
  ⟨rfl, rfl, by decide⟩

theorem sendLoop_isSome (st : PacketStatus) :
    ∀ (fuel : Nat) (s : ConnSendState) (data : List Nat),
      HEADER_SIZE < s.packet_size → data.length < fuel →
      (sendLoop st fuel s data).isSome = true := by
  intro fuel
  induction fuel with
  | zero =>
    intro s data _ hlen
    exact absurd hlen (by omega)
  | succ n ih =>
    intro s data hM hlen
    cases hemp : data.isEmpty with
    | true => simp [sendLoop, hemp]
    | false =>
      have hne : data ≠ [] := by simpa [List.isEmpty_iff] using hemp
      have hpos : 1 ≤ data.length := List.length_pos.mpr hne
      by_cases hfit : s.packet_size > data.length + HEADER_SIZE
      · simp [sendLoop, hemp, hfit]
      · have h8 : HEADER_SIZE = 8 := rfl
        have hlen2 : (data.drop (s.packet_size - HEADER_SIZE)).length < n := by
          simp only [List.length_drop]
          omega
        have hrec := ih { last_packet_id := (s.last_packet_id + 1) % 255,
                          packet_size := s.packet_size }
                        (data.drop (s.packet_size - HEADER_SIZE)) hM hlen2
        simp [sendLoop, hemp, hfit, alloc_id, hrec]

/-- C10: provided the negotiated maximum packet size strictly exceeds the
fixed header size, `send_packet` terminates — the splitting loop completes
within its `body.length + 1` step budget for every body — and each
non-final loop iteration strictly shrinks the remaining body. -/
theorem send_packet_terminates (s : ConnSendState) (body : List Nat)
    (hM : HEADER_SIZE < s.packet_size) :
    (send_packet s body).isSome = true ∧
    ∀ data : List Nat, data ≠ [] → ¬ (s.packet_size > data.length + HEADER_SIZE) →
      (data.drop (s.packet_size - HEADER_SIZE)).length < data.length := by
  constructor
  · unfold send_packet
    by_cases hlt : (build_packet PacketHeader.new body).header.length < s.packet_size
    · simp [hlt]
    · simp only [hlt, if_false]
      exact sendLoop_isSome _ _ _ _ hM (by simp [build_packet])
  · intro data hne hfit
    have hpos : 1 ≤ data.length := List.length_pos.mpr hne
    have h8 : HEADER_SIZE = 8 := rfl
    simp only [List.length_drop]
    omega

/-- C10 witness: the termination bound and the strict-shrink step at a
concrete state (maximum 16) and a concrete 20-byte body. -/
theorem send_packet_terminates_witness :
    (send_packet { last_packet_id := 0, packet_size := 16 }
        (List.replicate 20 0)).isSome = true ∧
    ((List.replicate 20 (0 : Nat)).drop (16 - HEADER_SIZE)).length
      < (List.replicate 20 (0 : Nat)).length :=
  ⟨(send_packet_terminates { last_packet_id := 0, packet_size := 16 }
      (List.replicate 20 0) (by decide)).1,
   (send_packet_terminates { last_packet_id := 0, packet_size := 16 }
      (List.replicate 20 0) (by decide)).2 (List.replicate 20 0) (by decide) (by decide)⟩

/-- C5: for every handshake environment, the connection's phase trace is a
prefix of `Initial, PreloginPerformed, Ready` (each transition at most
once, never regressing); a connection is handed out by `connect` only when
initialization succeeded, it is then in phase `Ready` and the full trace
was walked; any initialization failure propagates out of `connect` with no
connection object; and the trace reaches `Ready` exactly when
initialization succeeded. -/
theorem connect_phase_machine (env : HandshakeEnv) :
    ((conn_init env).trace = [ClientState.Initial]
      ∨ (conn_init env).trace = [ClientState.Initial, ClientState.PreloginPerformed]
      ∨ (conn_init env).trace
          = [ClientState.Initial, ClientState.PreloginPerformed, ClientState.Ready]) ∧
    (∀ c, connect env = TdsResult.ok c →
        c.state = ClientState.Ready
        ∧ (conn_init env).result = TdsResult.ok ()
        ∧ (conn_init env).trace
            = [ClientState.Initial, ClientState.PreloginPerformed, ClientState.Ready]) ∧
    (∀ e, (conn_init env).result = TdsResult.err e → connect env = TdsResult.err e) ∧
    ((conn_init env).result = TdsResult.ok () ↔
      (conn_init env).trace
        = [ClientState.Initial, ClientState.PreloginPerformed, ClientState.Ready]) := by
  unfold connect conn_init
  cases hps : prelogin_step env.preloginResponse with
  | err e => simp_all
  | panic m => simp_all
  | ok a =>
    cases hlr : login_read env.loginResponse with
    | err e => simp_all
    | panic m => simp_all
    | ok p =>
      cases p with
      | preLogin e => simp_all
      | otherPacket => simp_all
      | tokenStream tokens =>
        cases hsc : scanEnvChange defaultPacketSize tokens with
        | mk psz oe =>
          cases oe with
          | none => simp_all [List.getLastD]
          | some e => simp_all

/-- C5 witness: instantiating the phase-machine theorem at a successful
concrete handshake environment. -/
theorem connect_phase_machine_witness :
    (({ state := ClientState.Ready, packet_size := 2048 } : ActiveConn).state
        = ClientState.Ready
      ∧ (conn_init handshakeEnvOk).result = TdsResult.ok ()
      ∧ (conn_init handshakeEnvOk).trace
          = [ClientState.Initial, ClientState.PreloginPerformed, ClientState.Ready]) :=
  (connect_phase_machine handshakeEnvOk).2.1
    { state := ClientState.Ready, packet_size := 2048 } (by decide)

theorem do_prepare_sent (sql : String) (params : List ToColumnType) (h0 : Option Nat)
    (response : Packet) :
    (do_prepare sql params h0 response).sent = [sp_prepare_rpc sql params] := by
  unfold do_prepare
  repeat' split
  all_goals rfl

theorem do_prepare_ok_handle (sql : String) (params : List ToColumnType)
    (response : Packet)
    (h : (do_prepare sql params Option.none response).result = TdsResult.ok ()) :
    ∃ hh, (do_prepare sql params Option.none response).handle = Option.some hh := by
  unfold do_prepare at h ⊢
  repeat' split at h
  all_goals simp_all

theorem prepared_query_cached (h : Nat) (sql : String) (params : List ToColumnType)
    (e : PrepEnv) :
    (prepared_query (Option.some h) sql params e).sent = [sp_execute_rpc h params]
    ∧ (prepared_query (Option.some h) sql params e).handle = Option.some h := by
  unfold prepared_query prepared_internal_exec
  cases hits : into_stmt_token_stream e.execResponse <;> simp [hits]

theorem prepared_query_fresh_shape (sql : String) (params : List ToColumnType)
    (e : PrepEnv) :
    ((prepared_query Option.none sql params e).sent = [sp_prepare_rpc sql params]
      ∧ (prepared_query Option.none sql params e).handle
          = (do_prepare sql params Option.none e.prepResponse).handle)
    ∨ ∃ h, (prepared_query Option.none sql params e).handle = Option.some h
        ∧ (prepared_query Option.none sql params e).sent
            = [sp_prepare_rpc sql params, sp_execute_rpc h params] := by
  unfold prepared_query
  cases hres : (do_prepare sql params Option.none e.prepResponse).result with
  | err er => exact Or.inl ⟨by simp [hres, do_prepare_sent], by simp [hres]⟩
  | panic m => exact Or.inl ⟨by simp [hres, do_prepare_sent], by simp [hres]⟩
  | ok a =>
    obtain ⟨hh, hhandle⟩ := do_prepare_ok_handle sql params e.prepResponse (by
      cases a
      exact hres)
    refine Or.inr ⟨hh, ?_, ?_⟩
    · cases hits : into_stmt_token_stream e.execResponse <;>
        simp [hres, hits, hhandle, prepared_internal_exec]
    · cases hits : into_stmt_token_stream e.execResponse <;>
        simp [hres, hits, hhandle, prepared_internal_exec, do_prepare_sent]

theorem run_queries_cached (sql : String) (params : List ToColumnType) (h : Nat) :
    ∀ envs : List PrepEnv,
      ((run_queries (Option.some h) sql params envs).1.countP isPrepareRpc = 0
        ∧ (run_queries (Option.some h) sql params envs).2 = Option.some h
        ∧ ∀ r ∈ (run_queries (Option.some h) sql params envs).1,
            r = sp_execute_rpc h params) := by
  intro envs
  induction envs with
  | nil => exact ⟨rfl, rfl, by simp [run_queries]⟩
  | cons e rest ih =>
    obtain ⟨hsent, hhandle⟩ := prepared_query_cached h sql params e
    obtain ⟨ih1, ih2, ih3⟩ := ih
    refine ⟨?_, ?_, ?_⟩
    · simp [run_queries, hsent, hhandle, List.countP_append, ih1,
        List.countP_cons, isPrepareRpc, sp_execute_rpc]
    · simp [run_queries, hhandle, ih2]
    · intro r hr
      simp only [run_queries, hsent, hhandle, List.mem_append] at hr
      rcases hr with hr | hr
      · simpa using hr
      · exact ih3 r hr

/-- C6: for a prepared statement whose first `query` call stores the
server-assigned handle `h`, any sequence of N ≥ 1 executions sends exactly
one `sp_prepare` RPC (during the first call only), finishes with the same
cached handle, and every `sp_execute` RPC sent across all the calls
carries that same handle value in its leading by-reference "handle"
parameter — the handle is never re-requested. -/
theorem prepared_handle_reuse (sql : String) (params : List ToColumnType) (h : Nat)
    (e1 : PrepEnv) (rest : List PrepEnv)
    (hfirst : (prepared_query Option.none sql params e1).handle = Option.some h) :
    (run_queries Option.none sql params (e1 :: rest)).1.countP isPrepareRpc = 1
    ∧ (run_queries Option.none sql params (e1 :: rest)).2 = Option.some h
    ∧ ∀ r ∈ (run_queries Option.none sql params (e1 :: rest)).1,
        isExecuteRpc r = true →
          handleArg r = Option.some (ColumnType.i32 (i32_of_u32 h)) := by
  obtain ⟨hc0, hc1, hc2⟩ := run_queries_cached sql params h rest
  have hstep :
      run_queries Option.none sql params (e1 :: rest)
        = ((prepared_query Option.none sql params e1).sent
            ++ (run_queries (Option.some h) sql params rest).1,
           (run_queries (Option.some h) sql params rest).2) := by
    simp [run_queries, hfirst]
  rcases prepared_query_fresh_shape sql params e1 with ⟨hs, _⟩ | ⟨h2, hh2, hs⟩
  · refine ⟨?_, ?_, ?_⟩
    · simp [hstep, hs, List.countP_append, hc0, List.countP_cons, isPrepareRpc,
        sp_prepare_rpc]
    · simp [hstep, hc1]
    · intro r hr hex
      rw [hstep] at hr
      simp [hs] at hr
      rcases hr with hr | hr
      · subst hr
        exact absurd hex (by simp [isExecuteRpc, sp_prepare_rpc])
      · rw [hc2 r hr]
        simp [handleArg, sp_execute_rpc]
  · have hh : h2 = h := by
      rw [hh2] at hfirst
      exact (Option.some.injEq _ _).mp hfirst
    subst hh
    refine ⟨?_, ?_, ?_⟩
    · simp [hstep, hs, List.countP_append, hc0, List.countP_cons, isPrepareRpc,
        sp_prepare_rpc, sp_execute_rpc]
    · simp [hstep, hc1]
    · intro r hr hex
      rw [hstep] at hr
      simp [hs] at hr
      rcases hr with hr | hr | hr
      · subst hr
        exact absurd hex (by simp [isExecuteRpc, sp_prepare_rpc])
      · subst hr
        simp [handleArg, sp_execute_rpc]
      · rw [hc2 r hr]
        simp [handleArg, sp_execute_rpc]

/-- C6 witness: two executions against a peer that returns handle 7 to the
prepare call — one prepare RPC in total and the final handle is 7. -/
theorem prepared_handle_reuse_witness :
    (run_queries Option.none "SELECT @P1" [] [prepEnv7, prepEnv7]).1.countP isPrepareRpc = 1
    ∧ (run_queries Option.none "SELECT @P1" [] [prepEnv7, prepEnv7]).2 = Option.some 7 :=
  ⟨(prepared_handle_reuse "SELECT @P1" [] 7 prepEnv7 [prepEnv7] (by decide)).1,
   (prepared_handle_reuse "SELECT @P1" [] 7 prepEnv7 [prepEnv7] (by decide)).2.1⟩

theorem get_index_name_eq_none (s : String) (infos : List ColumnData)
    (h : ∀ c ∈ infos, c.col_name ≠ Option.some s) :
    get_index_name s infos = Option.none := by
  induction infos with
  | nil => rfl
  | cons c rest ih =>
    have hc := h c (by simp)
    have hrest := ih (fun c2 hc2 => h c2 (by simp [hc2]))
    cases hcn : c.col_name with
    | none => simp [get_index_name, hcn, hrest]
    | some n =>
      have hn : ¬ n = s := by
        intro he
        exact hc (by rw [hcn, he])
      simp [get_index_name, hcn, hn, hrest]

theorem get_index_name_first_match (s : String) :
    ∀ (infos : List ColumnData) (i : Nat),
      get_index_name s infos = Option.some i →
      (∃ c, infos.get? i = Option.some c ∧ c.col_name = Option.some s)
      ∧ ∀ j, j < i → ∀ cj, infos.get? j = Option.some cj →
          cj.col_name ≠ Option.some s := by
  intro infos
  induction infos with
  | nil =>
    intro i h
    exact absurd h (by simp [get_index_name])
  | cons c rest ih =>
    intro i h
    cases hcn : c.col_name with
    | some n =>
      by_cases hn : n = s
      · have h0 : i = 0 := by
          simp [get_index_name, hcn, hn] at h
          omega
        subst h0
        refine ⟨⟨c, rfl, by rw [hcn, hn]⟩, ?_⟩
        intro j hj
        omega
      · simp only [get_index_name, hcn, hn, if_false] at h
        obtain ⟨i2, hi2, hii⟩ := Option.map_eq_some'.mp h
        obtain ⟨⟨c2, hc2, hcs2⟩, hfirst⟩ := ih i2 hi2
        subst hii
        refine ⟨⟨c2, by simpa using hc2, hcs2⟩, ?_⟩
        intro j hj cj hcj
        cases j with
        | zero =>
          have hccj : c = cj := by simpa using hcj
          rw [← hccj, hcn]
          intro he
          exact hn (by simpa using he)
        | succ j2 =>
          exact hfirst j2 (by omega) cj (by simpa using hcj)
    | none =>
      simp only [get_index_name, hcn] at h
      obtain ⟨i2, hi2, hii⟩ := Option.map_eq_some'.mp h
      obtain ⟨⟨c2, hc2, hcs2⟩, hfirst⟩ := ih i2 hi2
      subst hii
      refine ⟨⟨c2, by simpa using hc2, hcs2⟩, ?_⟩
      intro j hj cj hcj
      cases j with
      | zero =>
        have hccj : c = cj := by simpa using hcj
        rw [← hccj, hcn]
        simp
      | succ j2 =>
        exact hfirst j2 (by omega) cj (by simpa using hcj)

theorem get_index_name_isSome (s : String) :
    ∀ infos : List ColumnData, (∃ c ∈ infos, c.col_name = Option.some s) →
      ∃ i, get_index_name s infos = Option.some i := by
  intro infos
  induction infos with
  | nil =>
    rintro ⟨c, hc, _⟩
    cases hc
  | cons c rest ih =>
    rintro ⟨c2, hc2, hcs⟩
    cases hcn : c.col_name with
    | some n =>
      by_cases hn : n = s
      · exact ⟨0, by simp [get_index_name, hcn, hn]⟩
      · have hc2r : c2 ∈ rest := by
          rcases List.mem_cons.mp hc2 with he | hm
          · subst he
            rw [hcn] at hcs
            exact absurd (by simpa using hcs) hn
          · exact hm
        obtain ⟨i, hi⟩ := ih ⟨c2, hc2r, hcs⟩
        exact ⟨i + 1, by simp [get_index_name, hcn, hn, hi]⟩
    | none =>
      have hc2r : c2 ∈ rest := by
        rcases List.mem_cons.mp hc2 with he | hm
        · subst he
          rw [hcn] at hcs
          cases hcs
        · exact hm
      obtain ⟨i, hi⟩ := ih ⟨c2, hc2r, hcs⟩
      exact ⟨i + 1, by simp [get_index_name, hcn, hi]⟩

/-- C9: row lookup is total only on valid requests — (1) a column name
absent from the statement's metadata aborts with the unknown-index panic;
(2) an ordinal at or beyond the row's width aborts with the bounds-check
panic; (3) a host type whose conversion rejects the decoded wire value
aborts with the type-mismatch panic (never a wrong value — no abort
carries a value); (4) name resolution is a linear scan in which the first
case-sensitive exact match wins: a resolved index holds a column with
exactly that name, every earlier column does not, and resolution succeeds
whenever some column matches; (5) an out-of-range row index on a result
set aborts likewise. -/
theorem row_lookup_contract :
    (∀ (α : Type) (infos : List ColumnData) (values : List ColumnValue)
        (dec : ColumnValue → Option α) (s : String),
        (∀ c ∈ infos, c.col_name ≠ Option.some s) →
        Row.get infos values dec (RowIdx.name s) = GetOutcome.panicUnknownIndex) ∧
    (∀ (α : Type) (infos : List ColumnData) (values : List ColumnValue)
        (dec : ColumnValue → Option α) (n : Nat),
        values.length ≤ n →
        Row.get infos values dec (RowIdx.pos n) = GetOutcome.panicIndexOutOfBounds) ∧
    (∀ (α : Type) (infos : List ColumnData) (values : List ColumnValue)
        (dec : ColumnValue → Option α) (n : Nat) (v : ColumnValue),
        values.get? n = Option.some v → dec v = Option.none →
        Row.get infos values dec (RowIdx.pos n) = GetOutcome.panicTypeMismatch) ∧
    (∀ (s : String) (infos : List ColumnData) (i : Nat),
        get_index infos (RowIdx.name s) = Option.some i →
        (∃ c, infos.get? i = Option.some c ∧ c.col_name = Option.some s)
        ∧ ∀ j, j < i → ∀ cj, infos.get? j = Option.some cj →
            cj.col_name ≠ Option.some s) ∧
    (∀ (s : String) (infos : List ColumnData),
        (∃ c ∈ infos, c.col_name = Option.some s) →
        ∃ i, get_index infos (RowIdx.name s) = Option.some i) ∧
    (∀ (rows : Option (List (List ColumnValue))) (idx : Nat),
        (∀ rs, rows = Option.some rs → rs.length ≤ idx) →
        QueryResult.get rows idx = GetOutcome.panicIndexOutOfBounds) := by
  refine ⟨?_, ?_, ?_, ?_, ?_, ?_⟩
  · intro α infos values dec s h
    simp [Row.get, get_index, get_index_name_eq_none s infos h]
  · intro α infos values dec n h
    simp [Row.get, get_index, List.getElem?_eq_none h]
  · intro α infos values dec n v hv hdec
    rw [List.get?_eq_getElem?] at hv
    simp [Row.get, get_index, hv, hdec]
  · intro s infos i h
    exact get_index_name_first_match s infos i h
  · intro s infos h
    exact get_index_name_isSome s infos h
  · intro rows idx h
    cases rows with
    | none => rfl
    | some rs =>
      simp [QueryResult.get, List.getElem?_eq_none (h rs rfl)]

/-- C9 witness: the three aborts and the successful first-match resolution
at concrete metadata, row, and codecs. -/
theorem row_lookup_contract_witness :
    Row.get infosAB valuesI32 decI32 (RowIdx.name "zz") = GetOutcome.panicUnknownIndex
    ∧ Row.get infosAB valuesI32 decI32 (RowIdx.pos 5) = GetOutcome.panicIndexOutOfBounds
    ∧ Row.get infosAB valuesI32 decStr (RowIdx.pos 0) = GetOutcome.panicTypeMismatch
    ∧ (∃ c, infosAB.get? 1 = Option.some c ∧ c.col_name = Option.some "b")
    ∧ QueryResult.get (Option.some [valuesI32]) 3 = GetOutcome.panicIndexOutOfBounds :=
  ⟨row_lookup_contract.1 Int infosAB valuesI32 decI32 "zz" (by decide),
   row_lookup_contract.2.1 Int infosAB valuesI32 decI32 5 (by decide),
   row_lookup_contract.2.2.1 String infosAB valuesI32 decStr 0
     (ColumnValue.Some (ColumnType.i32 1)) rfl rfl,
   (row_lookup_contract.2.2.2.1 "b" infosAB 1 (by decide)).1,
   row_lookup_contract.2.2.2.2.2 (Option.some [valuesI32]) 3
     (fun rs hrs => by cases hrs; decide)⟩

end Tiberius
